import Mathlib

/-!
# Verification of `terminallynx` (src/terminallynx/main.py)

Shallow embedding of the Gemini CLI browser's request/retry logic
(`GeminiBrowser.gemini_query`), model selection (`GeminiBrowser.set_model`)
and the interactive command loop (`main`), together with proofs of the
specification claims about them.

Modelling conventions:
* HTTP traffic is abstracted by an oracle `Nat → AttemptEvent` giving, for
  each attempt number (1-based, as in the source's `for attempt in
  range(1, retries + 1)`), either a response (status code plus JSON parse
  outcome of the body) or a transport-level failure
  (`requests.exceptions.RequestException` raised by `requests.post`).
* A 200 response body is either `invalid` — `response.json()` raises
  `requests.exceptions.JSONDecodeError`, which (requests ≥ 2.27) is a
  subclass of `RequestException` and is therefore caught by the outer
  `except` clause — or `valid v` with `v` the parsed JSON value.
* Python subscripting and attribute semantics during the extraction
  `output["candidates"][0]["content"]["parts"][0]["text"].strip()` are
  modelled exactly, including which exception class each misuse raises,
  because the source catches only `KeyError` and `IndexError` there.
* Console rendering (rich markup, panels, spinners) and file I/O for
  `/save` and `/export` are out of scope per the spec; where a claim is
  about an echoed message, the message text is modelled without markup
  tags. `time.sleep`, the request URL and the request payload do not
  affect any claim and are not modelled.
-/

namespace TerminalLynx

/-- Drop leading and trailing whitespace from a character list. -/
def stripChars (cs : List Char) : List Char :=
  ((cs.dropWhile Char.isWhitespace).reverse.dropWhile Char.isWhitespace).reverse

/-- Python `str.strip()` with no argument: remove leading and trailing
whitespace. (Python also strips a few rarer whitespace code points;
no claim depends on those.) -/
def pyStripString (s : String) : String := String.mk (stripChars s.toList)

/-- Python `str.lower()` (ASCII case mapping suffices for the
`exit`/`quit` comparison it is used for). -/
def pyLower (s : String) : String := String.mk (s.toList.map Char.toLower)

/-- `pre` is a leading run of `cs`. -/
def beginsWithChars : List Char → List Char → Bool
  | [], _ => true
  | _ :: _, [] => false
  | p :: ps, c :: cs => if p = c then beginsWithChars ps cs else false

/-- Python `s.startswith(pre)`. -/
def strBeginsWith (s pre : String) : Bool := beginsWithChars pre.toList s.toList

/-- Python exception classes that can be raised during response-text
extraction and are distinguished by the source's `except` clauses. -/
inductive PyExc where
  | keyError
  | indexError
  | typeError
  | attributeError
  deriving DecidableEq, Repr

/-- A parsed JSON value, as produced by `response.json()` (i.e. by
`json.loads`). Objects are Python dicts with string keys (keys distinct). -/
inductive JVal where
  | jnull
  | jbool (b : Bool)
  | jnum (n : Int)
  | jstr (s : String)
  | jarr (xs : List JVal)
  | jobj (fields : List (String × JVal))

/-- Python `v[k]` for a string key `k`: dict lookup (KeyError when the key
is missing), TypeError on every non-dict value (lists and strings reject
string indices; numbers, booleans and None are not subscriptable). -/
def getField (v : JVal) (k : String) : Except PyExc JVal :=
  match v with
  | .jobj fields => lookupField fields k
  | _ => .error .typeError
where
  lookupField : List (String × JVal) → String → Except PyExc JVal
    | [], _ => .error .keyError
    | (k2, x) :: rest, k => if k2 = k then .ok x else lookupField rest k

/-- Python `v[0]`: list head (IndexError when empty), KeyError on a dict
(JSON object keys are strings, so the integer key `0` is absent), the
first character (as a string) of a non-empty string, IndexError on an
empty string, TypeError on numbers, booleans and None. -/
def getIndexZero (v : JVal) : Except PyExc JVal :=
  match v with
  | .jarr (x :: _) => .ok x
  | .jarr [] => .error .indexError
  | .jobj _ => .error .keyError
  | .jstr s =>
    match s.toList with
    | [] => .error .indexError
    | c :: _ => .ok (.jstr (String.mk [c]))
  | _ => .error .typeError

/-- Python `v.strip()`: whitespace trimming on a string, AttributeError on
every other value (no non-`str` value has a `strip` attribute). -/
def pyStrip (v : JVal) : Except PyExc String :=
  match v with
  | .jstr s => .ok (pyStripString s)
  | _ => .error .attributeError

/-- The extraction `output["candidates"][0]["content"]["parts"][0]["text"].strip()`
performed on a 200 response body (main.py line 51), with the Python
exception it raises when the shape does not fit. -/
def extractText (output : JVal) : Except PyExc String := do
  let c ← getField output "candidates"
  let c0 ← getIndexZero c
  let ct ← getField c0 "content"
  let p ← getField ct "parts"
  let p0 ← getIndexZero p
  let t ← getField p0 "text"
  pyStrip t

/-- The sentinel returned when extraction raises KeyError or IndexError
(main.py line 53). -/
def sentinelReply : String := "⚠️ No valid response from Gemini."

/-- Outcome of `response.json()` on an attempt that produced a response:
either the body is not valid JSON (`JSONDecodeError`, a `RequestException`
subclass in requests ≥ 2.27) or it parses to a `JVal`. Only consulted when
the status code is 200, as in the source. -/
inductive BodyJson where
  | invalid
  | valid (v : JVal)

/-- An HTTP response: status code and body parse outcome. -/
structure HttpResponse where
  status : Nat
  body : BodyJson

/-- What one attempt (one `requests.post` call) experiences: a response,
or a `RequestException` raised by the post itself (connection error,
timeout). -/
inductive AttemptEvent where
  | response (r : HttpResponse)
  | netFail

/-- How `gemini_query` finishes: return a string, return `None`, or let an
uncaught exception propagate out of the function. -/
inductive QueryOutcome where
  | reply (s : String)
  | noResult
  | crash (e : PyExc)
  deriving DecidableEq, Repr

/-- The retry loop of `gemini_query` (main.py lines 45-65). `oracle k` is
the event of the (k+1)-th remaining attempt, relative to the current one;
`left` is the number of loop iterations still available, so `0 < left - 1`
inside the body corresponds to the source's `attempt < retries`. Returns
the outcome together with the number of `requests.post` calls issued. -/
def geminiQueryAux : (Nat → AttemptEvent) → Nat → QueryOutcome × Nat
  | _, 0 => (.noResult, 0)
  | oracle, left + 1 =>
    match oracle 0 with
    | .netFail =>
      -- `except requests.exceptions.RequestException` (lines 60-65)
      if 0 < left then
        let r := geminiQueryAux (fun k => oracle (k + 1)) left
        (r.1, r.2 + 1)
      else
        (.noResult, 1)
    | .response resp =>
      if resp.status = 200 then
        match resp.body with
        | .invalid =>
          -- `response.json()` raises JSONDecodeError, caught by the same
          -- `except RequestException` clause: retried, not returned
          if 0 < left then
            let r := geminiQueryAux (fun k => oracle (k + 1)) left
            (r.1, r.2 + 1)
          else
            (.noResult, 1)
        | .valid v =>
          match extractText v with
          | .ok s => (.reply s, 1)
          | .error .keyError => (.reply sentinelReply, 1)
          | .error .indexError => (.reply sentinelReply, 1)
          | .error e => (.crash e, 1)
      else
        -- `if 500 <= response.status_code < 600 and attempt < retries`
        if 500 ≤ resp.status ∧ resp.status < 600 ∧ 0 < left then
          let r := geminiQueryAux (fun k => oracle (k + 1)) left
          (r.1, r.2 + 1)
        else
          (.noResult, 1)

/-- `GeminiBrowser.gemini_query(prompt, retries, delay)` under a response
oracle: `oracle i` is what attempt `i` (1-based) experiences. The prompt
and delay do not influence control flow and are omitted. -/
def geminiQuery (oracle : Nat → AttemptEvent) (retries : Nat) : QueryOutcome × Nat :=
  geminiQueryAux (fun k => oracle (k + 1)) retries

/-! ## Session state and `set_model` -/

/-- The mutable fields of the `GeminiBrowser` object relevant to
behaviour (`self.model`, `self.system_prompt`; main.py lines 20-21). The
API key is checked fatally at startup and not modelled further. -/
structure GeminiBrowser where
  model : String
  system_prompt : Option String
  deriving DecidableEq, Repr

/-- The allow-list of main.py line 24. -/
def supported_models : List String := ["gemini-1.5-flash", "gemini-1.5-pro"]

/-- `GeminiBrowser.set_model` (main.py lines 23-30): returns the updated
object together with the console message it prints (rich markup tags
dropped; the rejection message ends with `', '.join(supported_models)`). -/
def set_model (bot : GeminiBrowser) (model_name : String) : GeminiBrowser × String :=
  if model_name ∈ supported_models then
    ({ bot with model := model_name }, "Switched to model: " ++ model_name)
  else
    (bot, "Unsupported model. Available models: " ++ String.intercalate ", " supported_models)

/-! ## The command loop -/

/-- Loop-local state of `main` (main.py lines 69-76): the browser object
plus `last_reply` and `history`. -/
structure LoopState where
  bot : GeminiBrowser
  last_reply : Option String
  history : List (String × String)
  deriving DecidableEq, Repr

/-- The state at the top of `main`: fresh `GeminiBrowser` (model
`gemini-1.5-flash`, no system instruction), `last_reply = None`,
`history = []`. -/
def initialState : LoopState :=
  { bot := { model := "gemini-1.5-flash", system_prompt := none },
    last_reply := none,
    history := [] }

/-- Which branch of the `if`/`elif` chain (main.py lines 81-152) a trimmed
input line takes. Mirrors the source's order and its use of
`startswith`. -/
inductive Command where
  | exitCmd
  | helpCmd
  | modelCmd
  | saveCmd
  | exportCmd
  | historyCmd
  | systemCmd
  | prompt
  deriving DecidableEq, Repr

/-- Branch selection on `user_input` (already `.strip()`-ed, as on main.py
line 79). Anything that is not `exit`/`quit` (case-insensitive) and does
not start with one of the six command strings falls through to the plain
prompt branch — including the empty string. -/
def classify (user_input : String) : Command :=
  if pyLower user_input = "exit" ∨ pyLower user_input = "quit" then .exitCmd
  else if strBeginsWith user_input "/help" then .helpCmd
  else if strBeginsWith user_input "/model" then .modelCmd
  else if strBeginsWith user_input "/save" then .saveCmd
  else if strBeginsWith user_input "/export" then .exportCmd
  else if strBeginsWith user_input "/history" then .historyCmd
  else if strBeginsWith user_input "/system" then .systemCmd
  else .prompt

/-- Python `str.split(maxsplit=1)` with the default whitespace separator:
drop leading whitespace; empty or all-whitespace gives `[]`; otherwise the
first whitespace-free token, and — when anything follows the separator
run — the remainder (trailing whitespace kept). -/
def splitMax1 (s : String) : List String :=
  let cs := (s.toList).dropWhile Char.isWhitespace
  match cs.takeWhile (fun c => ¬ c.isWhitespace) with
  | [] => []
  | tok =>
    let rest := ((cs.dropWhile (fun c => ¬ c.isWhitespace)).dropWhile Char.isWhitespace)
    if rest.isEmpty then [String.mk tok]
    else [String.mk tok, String.mk rest]

/-- Result of one loop iteration: continue with a new state, leave the
loop (`break` on exit/quit), or die on an exception that `gemini_query`
let propagate. -/
inductive StepResult where
  | cont (st : LoopState)
  | exited (st : LoopState)
  | crashed (st : LoopState) (e : PyExc)
  deriving DecidableEq, Repr

/-- The plain-prompt branch (main.py lines 152-159): call
`bot.gemini_query(user_input)` (default `retries=3`) and, because of the
truthiness test `if reply:`, record the exchange only when the reply is a
non-empty string. -/
def handleQuery (st : LoopState) (user_input : String) (oracle : Nat → AttemptEvent) : StepResult :=
  match (geminiQuery oracle 3).1 with
  | .reply s =>
    if s = "" then .cont st
    else .cont { st with last_reply := some s, history := st.history ++ [(user_input, s)] }
  | .noResult => .cont st
  | .crash e => .crashed st e

/-- One iteration of the `while True` loop of `main` (main.py lines
78-159) on the raw input line, with `oracle` supplying the HTTP events
should the iteration issue a query. `/save`, `/export`, `/help` and
`/history` only print or write files and leave the session state
untouched. -/
def loopStep (st : LoopState) (rawLine : String) (oracle : Nat → AttemptEvent) : StepResult :=
  let user_input := pyStripString rawLine
  match classify user_input with
  | .exitCmd => .exited st
  | .helpCmd => .cont st
  | .modelCmd =>
    match splitMax1 user_input with
    | [_, arg] => .cont { st with bot := (set_model st.bot (pyStripString arg)).1 }
    | _ => .cont st
  | .saveCmd => .cont st
  | .exportCmd => .cont st
  | .historyCmd => .cont st
  | .systemCmd =>
    match splitMax1 user_input with
    | [_, arg] => .cont { st with bot := { st.bot with system_prompt := some (pyStripString arg) } }
    | _ => .cont st
  | .prompt => handleQuery st user_input oracle

/-- `true` on outcomes that pass Python's `if reply:` test: a non-empty
string. `None` and `""` are falsy. -/
def truthyReply : QueryOutcome → Bool
  | .reply s => if s = "" then false else true
  | _ => false

/-- A successful exchange: the iteration takes the plain-prompt branch and
the query returns a truthy reply, so lines 157-159 run and a pair is
recorded. Depends only on the input line and the HTTP events. -/
def querySuccessful (rawLine : String) (oracle : Nat → AttemptEvent) : Bool :=
  decide (classify (pyStripString rawLine) = Command.prompt)
    && truthyReply (geminiQuery oracle 3).1

/-- Run the loop over a list of iterations, each a raw input line plus the
HTTP-event oracle for the query it may issue. Stops at `exit`/`quit` or at
an uncaught exception. Returns the final state and the number of
successful exchanges performed. -/
def runLoop : LoopState → List (String × (Nat → AttemptEvent)) → LoopState × Nat
  | st, [] => (st, 0)
  | st, (line, oracle) :: rest =>
    match loopStep st line oracle with
    | .exited st2 => (st2, 0)
    | .crashed st2 _ => (st2, 0)
    | .cont st2 =>
      let r := runLoop st2 rest
      (r.1, r.2 + (if querySuccessful line oracle then 1 else 0))

/-! ## Event classifications and concrete fixtures -/

/-- Events the spec calls retryable: transport failure or a 5xx status. -/
def retryableEvent : AttemptEvent → Bool
  | .netFail => true
  | .response r => decide (500 ≤ r.status ∧ r.status < 600)

/-- Events the code actually retries (when attempts remain): transport
failure, a 5xx status, or a 200 response whose body fails JSON parsing
(the `JSONDecodeError` is caught by the `except RequestException`
clause). -/
def retriedEvent : AttemptEvent → Bool
  | .netFail => true
  | .response r =>
    if r.status = 200 then
      match r.body with
      | .invalid => true
      | .valid _ => false
    else decide (500 ≤ r.status ∧ r.status < 600)

/-- A 200 body whose extraction raises at worst KeyError or IndexError —
the two exception classes the source catches. Bodies failing with
TypeError or AttributeError are not benign: those escape the function. -/
def benignExtract (v : JVal) : Bool :=
  match extractText v with
  | .error .typeError => false
  | .error .attributeError => false
  | _ => true

/-- A well-formed response body carrying the text `"hi"`. -/
def goodBody : JVal :=
  .jobj [("candidates", .jarr [.jobj [("content", .jobj [("parts",
    .jarr [.jobj [("text", .jstr "hi")]])])]])]

/-- A well-formed response body whose text is all whitespace, so that
`.strip()` yields the empty string. -/
def blankBody : JVal :=
  .jobj [("candidates", .jarr [.jobj [("content", .jobj [("parts",
    .jarr [.jobj [("text", .jstr "   ")]])])]])]

/-- Every attempt: 200 with `goodBody`. -/
def okOracle : Nat → AttemptEvent := fun _ => .response ⟨200, .valid goodBody⟩

/-- Every attempt: 200 with `blankBody`. -/
def blankOracle : Nat → AttemptEvent := fun _ => .response ⟨200, .valid blankBody⟩

/-- Every attempt: 404 (the body is never read on a non-200 status). -/
def notFoundOracle : Nat → AttemptEvent := fun _ => .response ⟨404, .invalid⟩

/-- Every attempt: 503. -/
def unavailableOracle : Nat → AttemptEvent := fun _ => .response ⟨503, .invalid⟩

/-- Every attempt: 200 with a body that is not valid JSON. -/
def invalidJsonOracle : Nat → AttemptEvent := fun _ => .response ⟨200, .invalid⟩

/-- Every attempt: 200 with the JSON body `null`. -/
def nullBodyOracle : Nat → AttemptEvent := fun _ => .response ⟨200, .valid .jnull⟩

/-- Attempt 1: 500; every later attempt: 200 with `goodBody`. -/
def recoveryOracle : Nat → AttemptEvent :=
  fun k => if k = 1 then .response ⟨500, .invalid⟩ else .response ⟨200, .valid goodBody⟩

/-- Every attempt: 200 with the JSON body `{}` (no `candidates` key). -/
def emptyShapeOracle : Nat → AttemptEvent := fun _ => .response ⟨200, .valid (.jobj [])⟩

/-! ## Helper lemmas about the retry loop -/

/-- When every available attempt meets an event the code retries, the
loop consumes all attempts and returns `None`, issuing one post per
attempt. -/
theorem geminiQueryAux_all_retried :
    ∀ (left : Nat) (oracle : Nat → AttemptEvent),
      1 ≤ left → (∀ k, k < left → retriedEvent (oracle k) = true) →
      geminiQueryAux oracle left = (QueryOutcome.noResult, left) := by
  intro left
  induction left with
  | zero => intro oracle h _; omega
  | succ n ih =>
    intro oracle _ hall
    have h0 : retriedEvent (oracle 0) = true := hall 0 (Nat.succ_pos n)
    have ihx : 1 ≤ n →
        geminiQueryAux (fun k => oracle (k + 1)) n = (QueryOutcome.noResult, n) :=
      fun h1 => ih (fun k => oracle (k + 1)) h1 (fun k hk => hall (k + 1) (by omega))
    cases hev : oracle 0 with
    | netFail =>
      by_cases hn : 0 < n
      · simp [geminiQueryAux, hev, hn, ihx hn]
      · have hz : n = 0 := by omega
        subst hz
        simp [geminiQueryAux, hev]
    | response r =>
      obtain ⟨s, b⟩ := r
      rw [hev] at h0
      simp only [retriedEvent] at h0
      by_cases h200 : s = 200
      · subst h200
        cases b with
        | valid v => simp at h0
        | invalid =>
          by_cases hn : 0 < n
          · simp [geminiQueryAux, hev, hn, ihx hn]
          · have hz : n = 0 := by omega
            subst hz
            simp [geminiQueryAux, hev]
      · have hs : 500 ≤ s ∧ s < 600 := by
          rw [if_neg h200] at h0
          exact of_decide_eq_true h0
        by_cases hn : 0 < n
        · simp [geminiQueryAux, hev, h200, hs.1, hs.2, hn, ihx hn]
        · have hz : n = 0 := by omega
          subst hz
          simp [geminiQueryAux, hev, h200]

/-- A response on the current attempt with a status that is neither 200
nor in the retry window ends the loop at once with `None` and one post. -/
theorem geminiQueryAux_terminal_response (oracle : Nat → AttemptEvent) (left : Nat)
    (r : HttpResponse) (h : oracle 0 = .response r) (h200 : r.status ≠ 200)
    (hns : ¬(500 ≤ r.status ∧ r.status < 600 ∧ 0 < left)) :
    geminiQueryAux oracle (left + 1) = (QueryOutcome.noResult, 1) := by
  simp only [geminiQueryAux, h]
  rw [if_neg h200, if_neg hns]

/-- A 200 response whose body extracts cleanly returns the stripped text
at once, with one post. -/
theorem geminiQueryAux_success (oracle : Nat → AttemptEvent) (left : Nat)
    (v : JVal) (t : String) (h : oracle 0 = .response ⟨200, .valid v⟩)
    (hx : extractText v = .ok t) :
    geminiQueryAux oracle (left + 1) = (QueryOutcome.reply t, 1) := by
  simp [geminiQueryAux, h, hx]

/-- A 200 response whose extraction raises KeyError or IndexError returns
the sentinel at once, with one post. -/
theorem geminiQueryAux_sentinel (oracle : Nat → AttemptEvent) (left : Nat)
    (v : JVal) (h : oracle 0 = .response ⟨200, .valid v⟩)
    (hx : extractText v = .error .keyError ∨ extractText v = .error .indexError) :
    geminiQueryAux oracle (left + 1) = (QueryOutcome.reply sentinelReply, 1) := by
  cases hx with
  | inl hk => simp [geminiQueryAux, h, hk]
  | inr hi => simp [geminiQueryAux, h, hi]

/-- When the current attempt meets a retried event and attempts remain,
the loop sleeps and moves to the next attempt. -/
theorem geminiQueryAux_retry_step (oracle : Nat → AttemptEvent) (left : Nat)
    (h : retriedEvent (oracle 0) = true) (hl : 0 < left) :
    geminiQueryAux oracle (left + 1)
      = ((geminiQueryAux (fun k => oracle (k + 1)) left).1,
         (geminiQueryAux (fun k => oracle (k + 1)) left).2 + 1) := by
  cases hev : oracle 0 with
  | netFail => simp [geminiQueryAux, hev, hl]
  | response r =>
    obtain ⟨s, b⟩ := r
    rw [hev] at h
    simp only [retriedEvent] at h
    by_cases h200 : s = 200
    · subst h200
      cases b with
      | valid v => simp at h
      | invalid => simp [geminiQueryAux, hev, hl]
    · have hs : 500 ≤ s ∧ s < 600 := by
        rw [if_neg h200] at h
        exact of_decide_eq_true h
      simp [geminiQueryAux, hev, h200, hs.1, hs.2, hl]

/-- As long as the body of every 200 response among the available attempts
extracts with at worst KeyError/IndexError, no uncaught exception leaves
the loop. -/
theorem geminiQueryAux_no_crash :
    ∀ (left : Nat) (oracle : Nat → AttemptEvent),
      (∀ k r v, k < left → oracle k = .response r → r.status = 200 →
        r.body = .valid v → benignExtract v = true) →
      ∀ e, (geminiQueryAux oracle left).1 ≠ QueryOutcome.crash e := by
  intro left
  induction left with
  | zero => intro oracle _ e; simp [geminiQueryAux]
  | succ n ih =>
    intro oracle hben e
    have ihx := ih (fun k => oracle (k + 1))
      (fun k r v hk hr hs hb => hben (k + 1) r v (by omega) hr hs hb)
    cases hev : oracle 0 with
    | netFail =>
      by_cases hn : 0 < n
      · simp only [geminiQueryAux, hev, if_pos hn]
        exact ihx e
      · simp [geminiQueryAux, hev, hn]
    | response r =>
      obtain ⟨s, b⟩ := r
      by_cases h200 : s = 200
      · subst h200
        cases b with
        | invalid =>
          by_cases hn : 0 < n
          · simp only [geminiQueryAux, hev, if_true, eq_self_iff_true]
            rw [if_pos hn]
            exact ihx e
          · simp [geminiQueryAux, hev, hn]
        | valid v =>
          have hb : benignExtract v = true :=
            hben 0 ⟨200, .valid v⟩ v (Nat.succ_pos n) hev rfl rfl
          simp only [benignExtract] at hb
          cases hx : extractText v with
          | ok t => simp [geminiQueryAux, hev, hx]
          | error pe =>
            rw [hx] at hb
            cases pe with
            | keyError => simp [geminiQueryAux, hev, hx]
            | indexError => simp [geminiQueryAux, hev, hx]
            | typeError => simp at hb
            | attributeError => simp at hb
      · by_cases hc : 500 ≤ s ∧ s < 600 ∧ 0 < n
        · simp only [geminiQueryAux, hev]
          rw [if_neg h200, if_pos hc]
          exact ihx e
        · simp only [geminiQueryAux, hev]
          rw [if_neg h200, if_neg hc]
          simp

/-! ## Helper lemmas about the command loop -/

/-- What one loop iteration may do to the session-observable state:
continuing grows the history by one exactly when the iteration is a
successful exchange and turns `last_reply` non-null only via one; leaving
the loop or dying on an exception changes nothing. -/
def stepOk (st : LoopState) : StepResult → Bool → Prop
  | .cont st2, success =>
    st2.history.length = st.history.length + (if success then 1 else 0) ∧
    (st2.last_reply ≠ none → st.last_reply ≠ none ∨ success = true)
  | .exited st2, _ => st2 = st
  | .crashed st2 _, _ => st2 = st

/-- Every iteration of the command loop satisfies `stepOk` with respect to
whether it is a successful exchange. -/
theorem loopStep_spec (st : LoopState) (line : String) (oracle : Nat → AttemptEvent) :
    stepOk st (loopStep st line oracle) (querySuccessful line oracle) := by
  cases hc : classify (pyStripString line) with
  | exitCmd => simp [loopStep, querySuccessful, hc, stepOk]
  | helpCmd => simp [loopStep, querySuccessful, hc, stepOk]
  | saveCmd => simp [loopStep, querySuccessful, hc, stepOk]
  | exportCmd => simp [loopStep, querySuccessful, hc, stepOk]
  | historyCmd => simp [loopStep, querySuccessful, hc, stepOk]
  | modelCmd =>
    simp only [loopStep, querySuccessful, hc]
    cases hsp : splitMax1 (pyStripString line) with
    | nil => simp [stepOk]
    | cons a rest =>
      cases rest with
      | nil => simp [stepOk]
      | cons b rest2 =>
        cases rest2 with
        | nil => simp [stepOk]
        | cons c rest3 => simp [stepOk]
  | systemCmd =>
    simp only [loopStep, querySuccessful, hc]
    cases hsp : splitMax1 (pyStripString line) with
    | nil => simp [stepOk]
    | cons a rest =>
      cases rest with
      | nil => simp [stepOk]
      | cons b rest2 =>
        cases rest2 with
        | nil => simp [stepOk]
        | cons c rest3 => simp [stepOk]
  | prompt =>
    simp only [loopStep, querySuccessful, hc, handleQuery]
    cases hq : (geminiQuery oracle 3).1 with
    | reply s =>
      by_cases hs : s = ""
      · subst hs
        simp [stepOk, truthyReply]
      · simp [stepOk, truthyReply, hs]
    | noResult => simp [stepOk, truthyReply]
    | crash e => simp [stepOk, truthyReply]

/-- Running the loop from any state: the history grows by exactly the
number of successful exchanges performed, and `last_reply` can become
non-null only through a successful exchange. -/
theorem runLoop_spec :
    ∀ (inputs : List (String × (Nat → AttemptEvent))) (st : LoopState),
      (runLoop st inputs).1.history.length = st.history.length + (runLoop st inputs).2 ∧
      ((runLoop st inputs).1.last_reply ≠ none →
        st.last_reply ≠ none ∨ 1 ≤ (runLoop st inputs).2) := by
  intro inputs
  induction inputs with
  | nil => intro st; simp [runLoop]
  | cons p rest ih =>
    intro st
    obtain ⟨line, oracle⟩ := p
    have hstep := loopStep_spec st line oracle
    cases hres : loopStep st line oracle with
    | exited st2 =>
      rw [hres] at hstep
      simp only [stepOk] at hstep
      subst hstep
      simp [runLoop, hres]
    | crashed st2 e =>
      rw [hres] at hstep
      simp only [stepOk] at hstep
      subst hstep
      simp [runLoop, hres]
    | cont st2 =>
      rw [hres] at hstep
      simp only [stepOk] at hstep
      obtain ⟨hlen, hlast⟩ := hstep
      obtain ⟨ihlen, ihlast⟩ := ih st2
      simp only [runLoop, hres]
      constructor
      · rw [ihlen, hlen]
        by_cases hqs : querySuccessful line oracle = true <;> simp [hqs]
        all_goals omega
      · intro hne
        rcases ihlast hne with h2 | h2
        · rcases hlast h2 with h3 | h3
          · exact Or.inl h3
          · right
            simp [h3]
        · right
          omega

/-- Every event the spec calls retryable (5xx or transport failure) is
indeed one the code retries. -/
theorem retryable_retried (e : AttemptEvent) (h : retryableEvent e = true) :
    retriedEvent e = true := by
  cases e with
  | netFail => rfl
  | response r =>
    obtain ⟨s, b⟩ := r
    simp only [retryableEvent] at h
    have hs : 500 ≤ s ∧ s < 600 := of_decide_eq_true h
    simp only [retriedEvent]
    rw [if_neg (by omega)]
    exact decide_eq_true hs

/-! ## The claims -/

/-- Claim C1: a run of `gemini_query` whose attempt receives an HTTP
response with a client-error status (400-499) returns `None` immediately
after that attempt — exactly one POST is issued and no further attempt is
made — for any positive retry limit. -/
theorem clientError_no_retry (oracle : Nat → AttemptEvent) (r : HttpResponse)
    (retries : Nat) (hfirst : oracle 1 = .response r) (h400 : 400 ≤ r.status)
    (h499 : r.status ≤ 499) (hr : 1 ≤ retries) :
    geminiQuery oracle retries = (QueryOutcome.noResult, 1) := by
  obtain ⟨l, rfl⟩ : ∃ l, retries = l + 1 := ⟨retries - 1, by omega⟩
  exact geminiQueryAux_terminal_response (fun k => oracle (k + 1)) l r hfirst
    (by omega) (by omega)

/-- Claim C1 witness: a 404 on the first attempt with the default retry
limit of 3 yields `None` after exactly one post. -/
theorem clientError_no_retry_witness :
    geminiQuery notFoundOracle 3 = (QueryOutcome.noResult, 1) :=
  clientError_no_retry notFoundOracle ⟨404, .invalid⟩ 3 rfl (by decide) (by decide)
    (by decide)

/-- Claim C2: when every attempt up to the retry limit meets a server
error (5xx) or a transport failure, `gemini_query` returns `None` after
exactly the configured number of attempts, and a plain-prompt iteration
of the command loop built on such a run (at the loop's fixed retry limit
of 3) leaves the whole state — history included — unchanged. -/
theorem serverError_exhausts_retries (oracle : Nat → AttemptEvent) (retries : Nat)
    (st : LoopState) (line : String) (hr : 1 ≤ retries)
    (hall : ∀ i, 1 ≤ i → i ≤ retries → retryableEvent (oracle i) = true)
    (hline : classify (pyStripString line) = Command.prompt) :
    geminiQuery oracle retries = (QueryOutcome.noResult, retries) ∧
    (retries = 3 → loopStep st line oracle = StepResult.cont st) := by
  have hq : geminiQuery oracle retries = (QueryOutcome.noResult, retries) := by
    apply geminiQueryAux_all_retried retries (fun k => oracle (k + 1)) hr
    intro k hk
    exact retryable_retried _ (hall (k + 1) (by omega) (by omega))
  refine ⟨hq, ?_⟩
  intro h3
  subst h3
  simp [loopStep, hline, handleQuery, hq]

/-- Claim C2 witness: persistent 503 over the default 3 attempts yields
`None` after 3 posts, and the loop state survives a prompt iteration
untouched. -/
theorem serverError_exhausts_retries_witness :
    geminiQuery unavailableOracle 3 = (QueryOutcome.noResult, 3) ∧
    loopStep initialState "hello" unavailableOracle = StepResult.cont initialState :=
  ⟨(serverError_exhausts_retries unavailableOracle 3 initialState "hello" (by decide)
      (fun i _ _ => rfl) (by decide)).1,
   (serverError_exhausts_retries unavailableOracle 3 initialState "hello" (by decide)
      (fun i _ _ => rfl) (by decide)).2 rfl⟩

/-- Claim C3: a 500 on the first attempt followed by a 200 whose body
extracts to `t` on the second attempt, with a retry limit of at least 2,
makes `gemini_query` return `t` after exactly two posts. -/
theorem retry_then_success (oracle : Nat → AttemptEvent) (retries : Nat)
    (b1 : BodyJson) (v : JVal) (t : String)
    (h1 : oracle 1 = .response ⟨500, b1⟩)
    (h2 : oracle 2 = .response ⟨200, .valid v⟩)
    (hx : extractText v = .ok t) (hr : 2 ≤ retries) :
    geminiQuery oracle retries = (QueryOutcome.reply t, 2) := by
  obtain ⟨l, rfl⟩ : ∃ l, retries = l + 1 + 1 := ⟨retries - 2, by omega⟩
  have hret : retriedEvent ((fun k => oracle (k + 1)) 0) = true := by
    show retriedEvent (oracle 1) = true
    rw [h1]
    simp [retriedEvent]
  have e1 := geminiQueryAux_retry_step (fun k => oracle (k + 1)) (l + 1) hret (by omega)
  have e2 : geminiQueryAux (fun k => oracle (k + 1 + 1)) (l + 1)
      = (QueryOutcome.reply t, 1) :=
    geminiQueryAux_success _ l v t h2 hx
  show geminiQueryAux (fun k => oracle (k + 1)) (l + 1 + 1) = (QueryOutcome.reply t, 2)
  rw [e1, e2]

/-- Claim C3 witness: 500 then 200 with a well-formed body inside the
default retry budget of 3 returns the 200's parsed text on the second
post. -/
theorem retry_then_success_witness :
    geminiQuery recoveryOracle 3 = (QueryOutcome.reply "hi", 2) :=
  retry_then_success recoveryOracle 3 .invalid goodBody "hi" rfl rfl rfl (by decide)

/-- Claim C4: a 200 response whose JSON body misses the nested
`candidates[0].content.parts[0].text` field through an absent key or
index makes `gemini_query` return the fixed sentinel reply on that very
attempt — neither an exception nor `None`. -/
theorem malformed_shape_sentinel (oracle : Nat → AttemptEvent) (retries : Nat) (v : JVal)
    (h1 : oracle 1 = .response ⟨200, .valid v⟩)
    (hx : extractText v = .error .keyError ∨ extractText v = .error .indexError)
    (hr : 1 ≤ retries) :
    geminiQuery oracle retries = (QueryOutcome.reply sentinelReply, 1) := by
  obtain ⟨l, rfl⟩ : ∃ l, retries = l + 1 := ⟨retries - 1, by omega⟩
  exact geminiQueryAux_sentinel (fun k => oracle (k + 1)) l v h1 hx

/-- Claim C4 witness: a 200 whose body is `{}` (no `candidates` key)
yields the sentinel reply after one post. -/
theorem malformed_shape_sentinel_witness :
    geminiQuery emptyShapeOracle 3 = (QueryOutcome.reply sentinelReply, 1) :=
  malformed_shape_sentinel emptyShapeOracle 3 (.jobj []) rfl (Or.inl rfl) (by decide)

/-- Claim C5: at every point in the command loop's execution — i.e. after
running any list of iterations from the start state — `last_reply` is
non-null only if at least one successful exchange has occurred, and the
length of `history` equals the number of successful exchanges since
process start. -/
theorem history_invariant (inputs : List (String × (Nat → AttemptEvent))) :
    ((runLoop initialState inputs).1.last_reply ≠ none →
      1 ≤ (runLoop initialState inputs).2) ∧
    (runLoop initialState inputs).1.history.length = (runLoop initialState inputs).2 := by
  obtain ⟨hlen, hlast⟩ := runLoop_spec inputs initialState
  constructor
  · intro hne
    rcases hlast hne with h | h
    · exact absurd rfl h
    · exact h
  · simpa [initialState] using hlen

/-- Claim C5 witness: after one iteration whose prompt succeeds, the
invariant instance holds with one exchange in the history. -/
theorem history_invariant_witness :
    (1 ≤ (runLoop initialState [("hi", okOracle)]).2) ∧
    (runLoop initialState [("hi", okOracle)]).1.history.length
      = (runLoop initialState [("hi", okOracle)]).2 :=
  ⟨(history_invariant [("hi", okOracle)]).1 (by decide),
   (history_invariant [("hi", okOracle)]).2⟩

/-- Claim C6 counterexample: a 200 response whose body is not valid JSON
is NOT returned immediately — with the default limit of 3, the run
issues three posts (the `JSONDecodeError` raised by `response.json()` is
caught by the `except RequestException` clause and retried) and only then
returns `None`. -/
theorem invalid_json_counterexample :
    geminiQuery invalidJsonOracle 3 = (QueryOutcome.noResult, 3) ∧
    (geminiQuery invalidJsonOracle 3).2 ≠ 1 := by
  constructor
  · rfl
  · decide

/-- Claim C6 amended: a 200 response whose body cannot be parsed as JSON
is treated like a transport failure — retried while attempts remain —
and when every attempt up to the limit yields such a response the
function returns `None` after exactly the configured number of posts. -/
theorem invalid_json_retried (oracle : Nat → AttemptEvent) (retries : Nat)
    (hr : 1 ≤ retries)
    (hall : ∀ i, 1 ≤ i → i ≤ retries → oracle i = .response ⟨200, .invalid⟩) :
    geminiQuery oracle retries = (QueryOutcome.noResult, retries) := by
  apply geminiQueryAux_all_retried retries (fun k => oracle (k + 1)) hr
  intro k hk
  rw [hall (k + 1) (by omega) (by omega)]
  rfl

/-- Claim C6 amended witness: three 200-with-invalid-JSON attempts at the
default limit give `None` after three posts. -/
theorem invalid_json_retried_witness :
    geminiQuery invalidJsonOracle 3 = (QueryOutcome.noResult, 3) :=
  invalid_json_retried invalidJsonOracle 3 (by decide) (fun i _ _ => rfl)

/-- Claim C7 counterexample: `gemini_query` does not return normally for
every body shape — a 200 response whose JSON body is `null` makes
`None["candidates"]` raise `TypeError`, which neither `except` clause
catches, so the exception propagates out of the function on the first
attempt. -/
theorem query_crash_counterexample :
    geminiQuery nullBodyOracle 3 = (QueryOutcome.crash PyExc.typeError, 1) := rfl

/-- Claim C7 amended: `gemini_query` returns normally (a string or
`None`) for every sequence of responses and transport failures in which
each 200-status JSON body extracts with at worst KeyError/IndexError;
exceptions escape only through a 200 body whose extraction raises
TypeError or AttributeError. -/
theorem query_no_crash (oracle : Nat → AttemptEvent) (retries : Nat)
    (hben : ∀ i r v, 1 ≤ i → i ≤ retries → oracle i = .response r →
      r.status = 200 → r.body = .valid v → benignExtract v = true) :
    ∀ e, (geminiQuery oracle retries).1 ≠ QueryOutcome.crash e := by
  apply geminiQueryAux_no_crash retries (fun k => oracle (k + 1))
  intro k r v hk hr hs hb
  exact hben (k + 1) r v (by omega) (by omega) hr hs hb

/-- Claim C7 amended witness: a persistent-503 run never ends in a
propagated exception. -/
theorem query_no_crash_witness :
    (geminiQuery unavailableOracle 3).1 ≠ QueryOutcome.crash PyExc.typeError :=
  query_no_crash unavailableOracle 3
    (by
      intro i r v _ _ hr hs _
      cases hr
      exact absurd hs (by decide))
    PyExc.typeError

/-- Claim C8: `set_model` with a name on the two-element allow-list sets
the active model to that name; with any other name it leaves the session
state unchanged and echoes the allow-list. -/
theorem set_model_allowlist (bot : GeminiBrowser) (name : String) :
    (name ∈ supported_models →
      (set_model bot name).1 = { bot with model := name }) ∧
    (name ∉ supported_models →
      (set_model bot name).1 = bot ∧
      (set_model bot name).2
        = "Unsupported model. Available models: "
            ++ String.intercalate ", " supported_models) := by
  constructor
  · intro hmem
    simp [set_model, hmem]
  · intro hmem
    simp [set_model, hmem]

/-- Claim C8 witness: `gemini-1.5-pro` is accepted and becomes the active
model; `gpt-4` is rejected with the allow-list echoed and no state
change. -/
theorem set_model_allowlist_witness :
    (set_model ⟨"gemini-1.5-flash", none⟩ "gemini-1.5-pro").1
        = ⟨"gemini-1.5-pro", none⟩ ∧
    (set_model ⟨"gemini-1.5-flash", none⟩ "gpt-4").1 = ⟨"gemini-1.5-flash", none⟩ ∧
    (set_model ⟨"gemini-1.5-flash", none⟩ "gpt-4").2
        = "Unsupported model. Available models: gemini-1.5-flash, gemini-1.5-pro" :=
  ⟨(set_model_allowlist ⟨"gemini-1.5-flash", none⟩ "gemini-1.5-pro").1 (by decide),
   ((set_model_allowlist ⟨"gemini-1.5-flash", none⟩ "gpt-4").2 (by decide)).1,
   ((set_model_allowlist ⟨"gemini-1.5-flash", none⟩ "gpt-4").2 (by decide)).2⟩

/-- Claim C9 counterexample: `gemini_query` can return a non-null result
(the empty string, from a 200 body whose text is all whitespace) on a
plain-prompt iteration, and yet — because of the truthiness test
`if reply:` — the loop neither sets `last_reply` nor appends to
`history`. -/
theorem empty_reply_counterexample :
    (geminiQuery blankOracle 3).1 = QueryOutcome.reply "" ∧
    loopStep initialState "hello" blankOracle = StepResult.cont initialState := by
  constructor
  · rfl
  · decide

/-- Claim C9 amended: on a plain-prompt iteration, whenever `gemini_query`
returns a truthy result — a non-null, non-empty string — the loop sets
`last_reply` to it and appends the (prompt, result) pair to `history`;
whenever it returns `None` or the empty string, state is unchanged. -/
theorem plain_prompt_updates (st : LoopState) (line : String)
    (oracle : Nat → AttemptEvent)
    (hline : classify (pyStripString line) = Command.prompt) :
    (∀ s, (geminiQuery oracle 3).1 = QueryOutcome.reply s → s ≠ "" →
      loopStep st line oracle = StepResult.cont
        { st with last_reply := some s,
                  history := st.history ++ [(pyStripString line, s)] }) ∧
    ((geminiQuery oracle 3).1 = QueryOutcome.reply "" ∨
        (geminiQuery oracle 3).1 = QueryOutcome.noResult →
      loopStep st line oracle = StepResult.cont st) := by
  constructor
  · intro s hq hs
    simp [loopStep, hline, handleQuery, hq, hs]
  · intro hq
    rcases hq with hq | hq <;> simp [loopStep, hline, handleQuery, hq]

/-- Claim C9 amended witness: a successful reply is displayed and
recorded; a `None` result leaves the state untouched. -/
theorem plain_prompt_updates_witness :
    loopStep initialState "hi" okOracle = StepResult.cont
      { initialState with last_reply := some "hi",
                          history := initialState.history ++ [(pyStripString "hi", "hi")] } ∧
    loopStep initialState "hi" unavailableOracle = StepResult.cont initialState :=
  ⟨(plain_prompt_updates initialState "hi" okOracle (by decide)).1 "hi" rfl (by decide),
   (plain_prompt_updates initialState "hi" unavailableOracle (by decide)).2 (Or.inr rfl)⟩

/-- Claim C10 counterexample: an input line that is empty after trimming
DOES invoke the Request Client — the loop has no emptiness check, the
empty string matches none of the command tests, and the exchange is even
recorded with an empty prompt when the query succeeds. -/
theorem empty_line_counterexample :
    loopStep initialState "" okOracle
      = StepResult.cont { bot := { model := "gemini-1.5-flash", system_prompt := none },
                          last_reply := some "hi",
                          history := [("", "hi")] } := by
  decide

/-- Claim C10 amended: a line that is empty after trimming is not
filtered out: it is classified as a plain prompt and the iteration runs
the Request Client on the empty string. -/
theorem empty_line_is_prompt (st : LoopState) (oracle : Nat → AttemptEvent)
    (line : String) (hempty : pyStripString line = "") :
    classify (pyStripString line) = Command.prompt ∧
    loopStep st line oracle = handleQuery st "" oracle := by
  constructor
  · rw [hempty]
    decide
  · simp only [loopStep]
    rw [hempty]
    rfl

/-- Claim C10 amended witness: a whitespace-only line reaches the prompt
branch and invokes the query with the empty string. -/
theorem empty_line_is_prompt_witness :
    classify (pyStripString "   ") = Command.prompt ∧
    loopStep initialState "   " okOracle = handleQuery initialState "" okOracle :=
  empty_line_is_prompt initialState okOracle "   " (by decide)

end TerminalLynx
